import Mathlib

/-!
Verification of the ExplainIt browser extension's Multi-Provider Dispatch and
Resilience Layer (src/extension/background.js, config.js, popup.js,
inline-popup.js), as a shallow embedding in Lean.

JavaScript strings are modelled as Lean `String`; JS objects used as string
maps are association lists; `undefined` is `Option.none`; a thrown `Error`
is an explicit error value.  The behaviour of `String.prototype.replace`
with a string pattern (first occurrence only, `$`-patterns in the
replacement) and of `String.prototype.includes` is modelled explicitly.
-/

namespace ExplainIt

set_option maxRecDepth 10000

/-! ## JS string primitives -/

/-- The dollar character, special in a JS `replace` replacement string. -/
def dollarChar : Char := Char.ofNat 36

/-- The backquote character (`$` + backquote inserts the prefix in JS replace). -/
def backquoteChar : Char := Char.ofNat 96

/-- The single-quote character (`$` + quote inserts the suffix in JS replace). -/
def quoteChar : Char := Char.ofNat 39

/-- The opening-brace character. -/
def braceChar : Char := Char.ofNat 123

/-- Model of `pat.isPrefixOf l` on character lists (used by the searches below). -/
def isPrefixList : List Char → List Char → Bool
  | [], _ => true
  | _ :: _, [] => false
  | p :: ps, c :: cs => p = c && isPrefixList ps cs

/-- Model of JS `String.prototype.includes` at the character-list level:
    does `pat` occur contiguously inside `l`? -/
def infixOf (pat : List Char) : List Char → Bool
  | [] => pat.isEmpty
  | c :: t => isPrefixList pat (c :: t) || infixOf pat t

/-- Model of JS `s.includes(sub)`. -/
def jsIncludes (s sub : String) : Bool :=
  infixOf sub.toList s.toList

/-- Split `l` around the first occurrence of `pat`: returns the part before the
    match and the part after it, or `none` when `pat` does not occur. -/
def splitFirst (pat : List Char) : List Char → Option (List Char × List Char)
  | [] => if pat.isEmpty then some ([], []) else none
  | c :: t =>
    if isPrefixList pat (c :: t) then some ([], (c :: t).drop pat.length)
    else
      match splitFirst pat t with
      | some (b, a) => some (c :: b, a)
      | none => none

/-- ECMAScript `GetSubstitution` for a string search value (no capture groups):
    in the replacement string, `$$` inserts a dollar, `$&` the matched
    substring, `$` + backquote the portion before the match, `$` + quote the
    portion after the match; any other `$` is literal. -/
def processReplacement (matched before after : List Char) : List Char → List Char
  | [] => []
  | [c] => [c]
  | c :: d :: rest =>
    if c = dollarChar then
      if d = dollarChar then dollarChar :: processReplacement matched before after rest
      else if d = Char.ofNat 38 then matched ++ processReplacement matched before after rest
      else if d = backquoteChar then before ++ processReplacement matched before after rest
      else if d = quoteChar then after ++ processReplacement matched before after rest
      else c :: processReplacement matched before after (d :: rest)
    else c :: processReplacement matched before after (d :: rest)

/-- Model of JS `s.replace(pat, rep)` with a string `pat`: replaces only the
    first occurrence, processing `$`-patterns in `rep`. -/
def jsReplaceOnce (s pat rep : String) : String :=
  match splitFirst pat.toList s.toList with
  | none => s
  | some (b, a) => ⟨b ++ processReplacement pat.toList b a rep.toList ++ a⟩

/-- JS object read `m[k]` for an object used as a string map (`undefined` = `none`). -/
def jsGet (m : List (String × String)) (k : String) : Option String :=
  match m with
  | [] => none
  | (k1, v1) :: t => if k1 = k then some v1 else jsGet t k

/-- JS object write `m[k] = v` for an object used as a string map. -/
def jsSet (m : List (String × String)) (k v : String) : List (String × String) :=
  match m with
  | [] => [(k, v)]
  | (k1, v1) :: t => if k1 = k then (k1, v) :: t else (k1, v1) :: jsSet t k v

/-- Model of JS `s.toLowerCase()` (the strings compared in the code are ASCII). -/
def jsToLowerCase (s : String) : String :=
  ⟨s.toList.map Char.toLower⟩

/-! ## Prompt templates (config.js `PROMPTS`, mirrored inline in background.js) -/

/-- The `\x7btext\x7d` insertion placeholder used by every template. -/
def placeholder : String := "\x7btext\x7d"

/-- config.js `PROMPTS.simple.en`. -/
def simple_en : String :=
  "Explain the following text in simple words that any adult can understand. Keep it concise (2-4 sentences). Do not use jargon.\n\nText:\n\x7btext\x7d"

/-- config.js `PROMPTS.simple.ru`. -/
def simple_ru : String :=
  "Объясни следующий текст простыми словами, понятными любому взрослому человеку. Будь краток (2-4 предложения). Не используй жаргон.\n\nТекст:\n\x7btext\x7d"

/-- config.js `PROMPTS.kid.en`. -/
def kid_en : String :=
  "Explain the following text as if talking to a 5-year-old child. Use very simple words, short sentences, and a fun comparison if possible.\n\nText:\n\x7btext\x7d"

/-- config.js `PROMPTS.kid.ru`. -/
def kid_ru : String :=
  "Объясни следующий текст так, как будто ты разговариваешь с 5-летним ребёнком. Используй очень простые слова, короткие предложения и интересное сравнение, если возможно.\n\nТекст:\n\x7btext\x7d"

/-- config.js `PROMPTS.expert.en`. -/
def expert_en : String :=
  "Provide a precise, technical explanation of the following text for a professional audience. Use appropriate terminology and cover key nuances.\n\nText:\n\x7btext\x7d"

/-- config.js `PROMPTS.expert.ru`. -/
def expert_ru : String :=
  "Предоставь точное техническое объяснение следующего текста для профессиональной аудитории. Используй соответствующую терминологию и раскрой ключевые нюансы.\n\nТекст:\n\x7btext\x7d"

/-- One tone entry of the `PROMPTS` table: its `en` and `ru` templates. -/
structure TonePrompts where
  en : String
  ru : String

/-- JS property read `PROMPTS[tone]` (`undefined` for unknown tones). -/
def PROMPTS : String → Option TonePrompts
  | t =>
    if t = "simple" then some ⟨simple_en, simple_ru⟩
    else if t = "kid" then some ⟨kid_en, kid_ru⟩
    else if t = "expert" then some ⟨expert_en, expert_ru⟩
    else none

/-- JS property read `tonePrompts[language]` (`undefined` for unknown languages). -/
def langLookup (tp : TonePrompts) (lang : String) : Option String :=
  if lang = "en" then some tp.en
  else if lang = "ru" then some tp.ru
  else none

/-- background.js `buildPrompt` (identical to config.js `getPrompt` up to
    argument order): `PROMPTS[tone] || PROMPTS.simple`, then
    `tonePrompts[language] || tonePrompts.en`, then one
    `template.replace(placeholder, text)`. -/
def buildPrompt (text tone language : String) : String :=
  let tonePrompts := (PROMPTS tone).getD ⟨simple_en, simple_ru⟩
  let template := (langLookup tonePrompts language).getD tonePrompts.en
  jsReplaceOnce template placeholder text

/-! ## Provider registry and request construction (background.js) -/

/-- One entry of background.js `PROVIDER_CONFIGS`. -/
structure ProviderConfig where
  url : String
  model : String
  type : String

/-- JS property read `PROVIDER_CONFIGS[providerId]`. -/
def PROVIDER_CONFIGS : String → Option ProviderConfig
  | p =>
    if p = "openai" then
      some ⟨"https://api.openai.com/v1/chat/completions", "gpt-4o-mini", "openai"⟩
    else if p = "anthropic" then
      some ⟨"https://api.anthropic.com/v1/messages", "claude-3-5-haiku-20241022", "anthropic"⟩
    else if p = "gemini" then
      some ⟨"https://generativelanguage.googleapis.com/v1beta/models/gemini-1.5-flash:generateContent", "gemini-1.5-flash", "gemini"⟩
    else if p = "groq" then
      some ⟨"https://api.groq.com/openai/v1/chat/completions", "llama-3.3-70b-versatile", "openai"⟩
    else none

/-- The URL, method and header list of one outgoing HTTP call (the parts of the
    `fetch` options the credential-scheme claims are about; the JSON body
    never carries the credential in any provider family). -/
structure HttpRequest where
  url : String
  method : String
  headers : List (String × String)

/-- Header lookup in a request, by exact header name as written in the code. -/
def headerLookup (r : HttpRequest) (name : String) : Option String :=
  jsGet r.headers name

/-- The request issued by background.js `callOpenAICompatible` (OpenAI and Groq). -/
def callOpenAICompatible_request (url apiKey : String) : HttpRequest :=
  { url := url
    method := "POST"
    headers := [("Content-Type", "application/json"),
                ("Authorization", "Bearer " ++ apiKey)] }

/-- The request issued by background.js `callAnthropic`. -/
def callAnthropic_request (apiKey : String) : HttpRequest :=
  { url := "https://api.anthropic.com/v1/messages"
    method := "POST"
    headers := [("Content-Type", "application/json"),
                ("x-api-key", apiKey),
                ("anthropic-version", "2023-06-01")] }

/-- The request issued by background.js `callGemini`: the key goes into the
    URL query string, the only header is `Content-Type`. -/
def callGemini_request (apiKey model : String) : HttpRequest :=
  { url := "https://generativelanguage.googleapis.com/v1beta/models/" ++ model
             ++ ":generateContent?key=" ++ apiKey
    method := "POST"
    headers := [("Content-Type", "application/json")] }

/-- background.js `callProvider` routing: `PROVIDER_CONFIGS[providerId] ||
    PROVIDER_CONFIGS.openai`, then a switch on `providerCfg.type` whose
    default branch is the OpenAI-compatible caller. -/
def callProvider_request (providerId apiKey : String) : HttpRequest :=
  let providerCfg := (PROVIDER_CONFIGS providerId).getD
    ⟨"https://api.openai.com/v1/chat/completions", "gpt-4o-mini", "openai"⟩
  if providerCfg.type = "anthropic" then callAnthropic_request apiKey
  else if providerCfg.type = "gemini" then callGemini_request apiKey providerCfg.model
  else callOpenAICompatible_request providerCfg.url apiKey

/-! ## Dispatcher outcome per attempt (background.js callers) -/

/-- Source shape behind `data.choices?.[0]?.message?.content`: each `?.`
    step may find the field absent. -/
structure OpenAIMessage where
  content : Option String

/-- One element of the OpenAI `choices` array. -/
structure OpenAIChoice where
  message : Option OpenAIMessage

/-- The parsed JSON body of an OpenAI-compatible success response. -/
structure OpenAIBody where
  choices : Option (List OpenAIChoice)

/-- The optional-chaining extraction `data.choices?.[0]?.message?.content`. -/
def extractOpenAI (b : OpenAIBody) : Option String :=
  (((b.choices.bind List.head?).bind OpenAIChoice.message).bind OpenAIMessage.content)

/-- What one `fetchWithTimeout` call inside a dispatcher produced. -/
inductive HttpResponse where
  /-- the response had `ok` true and the body parsed to `b`. -/
  | ok (b : OpenAIBody)
  /-- the response had `ok` false with this status; `errorMessage` is
      `errorData.error?.message` when the error body parsed to one. -/
  | fail (status : Nat) (errorMessage : Option String)
  /-- the fetch was aborted by the 30s timer (`AbortError`). -/
  | timedOut
  /-- the fetch rejected at the network level with this message. -/
  | netError (message : String)

/-- The outcome of one dispatcher attempt: the extracted text, or the message
    of the `Error` the dispatcher threw. -/
inductive AttemptResult where
  | ok (text : String)
  | err (message : String)
deriving DecidableEq, Repr

/-- background.js `callOpenAICompatible` as a function of what its single
    `fetchWithTimeout` call did: `fetchWithTimeout` turns an abort into
    `throw new Error(\x27Request timed out\x27)` and re-throws other network
    errors; a non-ok response throws `errorData.error?.message ||
    \x60HTTP ${status}\x60`; a falsy extraction result (absent field or empty
    string) throws the empty-response error. -/
def callOpenAICompatible_result : HttpResponse → AttemptResult
  | .timedOut => .err "Request timed out"
  | .netError m => .err m
  | .fail status pm => .err (pm.getD ("HTTP " ++ toString status))
  | .ok b =>
    match extractOpenAI b with
    | some s => if s = "" then .err "Empty response from provider" else .ok s
    | none => .err "Empty response from provider"

/-! ## Resilience controller (background.js fetchExplanationWithResilience) -/

/-- background.js `TIMEOUT_MS`. -/
def TIMEOUT_MS : Nat := 30000

/-- background.js `RETRY_ATTEMPTS` (additional attempts after the first). -/
def RETRY_ATTEMPTS : Nat := 2

/-- background.js `RETRY_DELAY_MS`. -/
def RETRY_DELAY_MS : Nat := 1000

/-- The retryability classifier inside `fetchExplanationWithResilience`:
    a substring test on the error MESSAGE (not on the status code). -/
def isRetryable (msg : String) : Bool :=
  jsIncludes msg "timeout" || jsIncludes msg "network" || jsIncludes msg "fetch" ||
    jsIncludes msg "500" || jsIncludes msg "429"

/-- The object `fetchExplanationWithResilience` resolves to:
    `{success: true, result}` or `{success: false, error}`. -/
structure FetchResult where
  success : Bool
  result : Option String
  error : Option String
deriving DecidableEq, Repr

/-- The retry loop of `fetchExplanationWithResilience`, from attempt index
    `attempt` with `fuel` additional attempts allowed (`fuel = RETRY_ATTEMPTS -
    attempt`); `outcome n` is what the dispatcher does on attempt `n`.  Returns
    the terminal result together with the number of dispatcher calls made. -/
def resilienceGo (outcome : Nat → AttemptResult) (attempt fuel : Nat) :
    FetchResult × Nat :=
  match outcome attempt with
  | .ok text => (⟨true, some text, none⟩, 1)
  | .err msg =>
    match fuel with
    | 0 => (⟨false, none, some msg⟩, 1)
    | fuel1 + 1 =>
      if isRetryable msg then
        let r := resilienceGo outcome (attempt + 1) fuel1
        (r.1, r.2 + 1)
      else
        (⟨false, none, some msg⟩, 1)

/-- background.js `fetchExplanationWithResilience`, abstracted over what the
    dispatcher does on each attempt. -/
def fetchExplanationWithResilience (outcome : Nat → AttemptResult) :
    FetchResult × Nat :=
  resilienceGo outcome 0 RETRY_ATTEMPTS

/-! ## FETCH_EXPLANATION message handler (background.js listener) -/

/-- The no-key error message from the background listener. -/
def noKeyError : String := "No API key configured. Open Settings and add your API key."

/-- The `FETCH_EXPLANATION` branch of the background message listener:
    `provider = stored.provider || \x27openai\x27`, `apiKeys = stored.apiKeys
    || \x7b\x7d`, `apiKey = apiKeys[providerId] || \x27\x27`; with no key it
    responds with the no-key error and never reaches the resilience loop.
    Returns the response sent plus the number of dispatcher calls performed. -/
def handleFetchExplanation (storedProvider : Option String)
    (storedApiKeys : Option (List (String × String)))
    (outcome : Nat → AttemptResult) : FetchResult × Nat :=
  let providerId := storedProvider.getD "openai"
  let apiKeys := storedApiKeys.getD []
  let apiKey := (jsGet apiKeys providerId).getD ""
  if apiKey = "" then
    (⟨false, none, some noKeyError⟩, 0)
  else
    fetchExplanationWithResilience outcome

/-! ## Popup layer above the controller (popup.js fetchExplanation) -/

/-- popup.js `fetchExplanation` failure branch: the credential-error flag is
    re-derived from the raw error text:
    `response?.error?.toLowerCase().includes(\x27no api key\x27) ||
     response?.error?.toLowerCase().includes(\x27api key\x27)`. -/
def popupIsNoKeyError (error : Option String) : Bool :=
  match error with
  | none => false
  | some e =>
    jsIncludes (jsToLowerCase e) "no api key" || jsIncludes (jsToLowerCase e) "api key"

/-! ## Settings save (popup.js saveSettings, inline-popup.js saveInlineSettings) -/

/-- The settings object passed to save: `language`, `tone`, `provider` and the
    `apiKeys` map of provider id to credential. -/
structure Settings where
  language : String
  tone : String
  provider : String
  apiKeys : List (String × String)

/-- One payload object passed to a storage `set` call; a field is `none` when
    the written object has no such property. -/
structure StorePayload where
  language : Option String := none
  tone : Option String := none
  provider : Option String := none
  apiKeys : Option (List (String × String)) := none

/-- The full trace of one save: the outcome reported to the caller and every
    payload handed to the cross-device (sync) store and to the device-local
    store, in order, whether or not the store accepted it. -/
structure SaveTrace where
  success : Bool
  fallback : Bool
  error : Option String
  syncWrites : List StorePayload
  localWrites : List StorePayload

/-- popup.js `validateSettings`: each field is checked against its closed
    enumeration only when truthy (a JS empty string skips its check). -/
def validateSettings (s : Settings) : Bool :=
  !(s.language ≠ "" && !(["en", "ru"].contains s.language)) &&
  !(s.tone ≠ "" && !(["simple", "kid", "expert"].contains s.tone)) &&
  !(s.provider ≠ "" && !(["openai", "anthropic", "gemini", "groq"].contains s.provider))

/-- popup.js `saveSettings`: validate; then `chrome.storage.sync.set({language,
    tone})` and `chrome.storage.local.set({provider, apiKeys})`; if either
    throws, fall back to `chrome.storage.local.set({language, tone, provider,
    apiKeys})`.  `syncOk` models whether the sync write succeeds, `localOk`
    the first local write, `fallbackOk` the fallback local write. -/
def saveSettings (ns : Settings) (syncOk localOk fallbackOk : Bool) : SaveTrace :=
  if !validateSettings ns then
    ⟨false, false, some "Invalid settings values", [], []⟩
  else
    let syncPayload : StorePayload := { language := some ns.language, tone := some ns.tone }
    let localPayload : StorePayload := { provider := some ns.provider, apiKeys := some ns.apiKeys }
    let fallbackPayload : StorePayload :=
      { language := some ns.language, tone := some ns.tone,
        provider := some ns.provider, apiKeys := some ns.apiKeys }
    if syncOk then
      if localOk then
        ⟨true, false, none, [syncPayload], [localPayload]⟩
      else if fallbackOk then
        ⟨true, true, none, [syncPayload], [localPayload, fallbackPayload]⟩
      else
        ⟨false, false, some "Failed to save settings", [syncPayload], [localPayload, fallbackPayload]⟩
    else
      if fallbackOk then
        ⟨true, true, none, [syncPayload], [fallbackPayload]⟩
      else
        ⟨false, false, some "Failed to save settings", [syncPayload], [fallbackPayload]⟩

/-- inline-popup.js `saveInlineSettings`: normalize falsy fields to defaults,
    write `{language, tone}` to the sync store (a failure is only logged and
    reported as `fallback`), then `{provider, apiKeys}` to the local store
    (a failure there fails the save). -/
def saveInlineSettings (ns : Settings) (syncOk localOk : Bool) : SaveTrace :=
  let language := if ns.language = "" then "en" else ns.language
  let tone := if ns.tone = "" then "simple" else ns.tone
  let provider := if ns.provider = "" then "openai" else ns.provider
  let syncPayload : StorePayload := { language := some language, tone := some tone }
  let localPayload : StorePayload := { provider := some provider, apiKeys := some ns.apiKeys }
  if localOk then
    ⟨true, !syncOk, none, [syncPayload], [localPayload]⟩
  else
    ⟨false, false, some "Failed to save settings to local storage", [syncPayload], [localPayload]⟩

/-! ## Provider switch (popup.js onProviderSwitch / updateApiKeyField) -/

/-- The settings-session state the popup switch logic touches: the active
    provider, the saved keys, the per-provider draft slots and the live value
    of the key input element. -/
structure PopupState where
  provider : String
  savedKeys : List (String × String)
  draft : List (String × String)
  keyInput : String

/-- popup.js `updateApiKeyField`: the input shows the draft when one exists
    (`draftApiKeys[providerId] !== undefined`), else the saved key, else the
    empty string. -/
def updateApiKeyField (st : PopupState) (providerId : String) : PopupState :=
  { st with keyInput :=
      match jsGet st.draft providerId with
      | some v => v
      | none => (jsGet st.savedKeys providerId).getD "" }

/-- popup.js `onProviderSwitch`: capture the live input into the current
    provider draft slot, set the new provider, then load its field. -/
def onProviderSwitch (st : PopupState) (newProviderId : String) : PopupState :=
  let st1 := { st with draft := jsSet st.draft st.provider st.keyInput }
  let st2 := { st1 with provider := newProviderId }
  updateApiKeyField st2 newProviderId

/-- Typing into the popup key input only changes the DOM value (popup.js has
    no input listener on the key field). -/
def typeKey (st : PopupState) (v : String) : PopupState :=
  { st with keyInput := v }

/-! ## Provider switch in the inline popup (inline-popup.js) -/

/-- The inline settings form state: `activeProvider`, the draft map
    (initialized from the saved keys when the form opens) and the key input. -/
structure InlineState where
  active : String
  draft : List (String × String)
  keyInput : String

/-- Model of JS `s.trim()` (the code trims the key before storing a draft):
    strip leading and trailing whitespace. -/
def jsTrim (s : String) : String :=
  ⟨((s.toList.dropWhile Char.isWhitespace).reverse.dropWhile Char.isWhitespace).reverse⟩

/-- inline-popup.js `updateApiKeyField`: sets the active provider and shows
    `draftApiKeys[providerId] || \x27\x27` (draft only; the draft map was
    seeded from the saved keys). -/
def inlineUpdateApiKeyField (st : InlineState) (providerId : String) : InlineState :=
  { st with active := providerId,
            keyInput :=
              match jsGet st.draft providerId with
              | some v => v
              | none => "" }

/-- The inline `providerSelect` change handler: store the TRIMMED live input
    into the active provider draft slot, then load the new provider. -/
def inlineProviderChange (st : InlineState) (newProviderId : String) : InlineState :=
  let st1 := { st with draft := jsSet st.draft st.active (jsTrim st.keyInput) }
  inlineUpdateApiKeyField st1 newProviderId

/-- The inline key input `input` handler: the DOM holds the typed value, and
    the trimmed value is stored into the active draft slot immediately. -/
def inlineTypeKey (st : InlineState) (v : String) : InlineState :=
  { st with keyInput := v, draft := jsSet st.draft st.active (jsTrim v) }

/-! ## Helper lemmas -/

theorem jsGet_jsSet_self (m : List (String × String)) (k v : String) :
    jsGet (jsSet m k v) k = some v := by
  induction m with
  | nil => simp [jsSet, jsGet]
  | cons hd t ih =>
    obtain ⟨k1, v1⟩ := hd
    by_cases hk : k1 = k
    · simp [jsSet, jsGet, hk]
    · simp [jsSet, jsGet, hk, ih]

theorem jsGet_jsSet_other (m : List (String × String)) (k k2 v : String)
    (h : k2 ≠ k) : jsGet (jsSet m k v) k2 = jsGet m k2 := by
  have h1 : ¬(k = k2) := fun hh => h hh.symm
  induction m with
  | nil => simp [jsSet, jsGet, h1]
  | cons hd t ih =>
    obtain ⟨k1, v1⟩ := hd
    by_cases hk : k1 = k
    · subst hk
      have h2 : ¬(k1 = k2) := fun hh => h hh.symm
      simp [jsSet, jsGet, h2]
    · by_cases hk2 : k1 = k2
      · simp [jsSet, jsGet, hk, hk2, h]
      · simp [jsSet, jsGet, hk, hk2, ih]

theorem processReplacement_id (matched before after : List Char) :
    ∀ rep : List Char, dollarChar ∉ rep →
      processReplacement matched before after rep = rep := by
  intro rep
  induction rep with
  | nil => intro _; rfl
  | cons c rest ih =>
    intro h
    have hc : ¬(c = dollarChar) := fun hh => h (hh ▸ List.mem_cons_self c rest)
    have hrest : dollarChar ∉ rest := fun hm => h (List.mem_cons_of_mem c hm)
    cases rest with
    | nil => rfl
    | cons d rest2 =>
      simp only [processReplacement, if_neg hc]
      exact congrArg (c :: ·) (ih hrest)

theorem isPrefixList_self_append (p post : List Char) :
    isPrefixList p (p ++ post) = true := by
  induction p with
  | nil => rfl
  | cons c t ih => simp [isPrefixList, ih]

theorem infixOf_append_self (pre p : List Char) : infixOf p (pre ++ p) = true := by
  induction pre with
  | nil =>
    cases p with
    | nil => rfl
    | cons c t =>
      have := isPrefixList_self_append (c :: t) []
      simp only [List.append_nil] at this
      simp [infixOf, this]
  | cons c pre ih => simp [infixOf, ih]

theorem infixOf_head_notin (c0 : Char) (rest l : List Char) (h : c0 ∉ l) :
    infixOf (c0 :: rest) l = false := by
  induction l with
  | nil => rfl
  | cons c t ih =>
    have hc : ¬(c0 = c) := fun hh => h (hh ▸ List.mem_cons_self c t)
    have ht : c0 ∉ t := fun hm => h (List.mem_cons_of_mem c hm)
    simp [infixOf, isPrefixList, hc, ih ht]

/-- The common shape of every successful placeholder substitution: when the
    template splits as `preL ++ placeholder`, a text free of `$` and brace
    characters is inserted verbatim and the result has no placeholder left. -/
theorem replace_case (template text : String) (preL : List Char)
    (hsplit : splitFirst placeholder.toList template.toList = some (preL, []))
    (hpre : braceChar ∉ preL)
    (hd : dollarChar ∉ text.toList) (hb : braceChar ∉ text.toList) :
    jsIncludes (jsReplaceOnce template placeholder text) text = true ∧
      jsIncludes (jsReplaceOnce template placeholder text) placeholder = false := by
  have hrepl0 : jsReplaceOnce template placeholder text =
      ⟨preL ++ processReplacement placeholder.toList preL [] text.toList ++ []⟩ := by
    unfold jsReplaceOnce
    rw [hsplit]
  have hrepl : jsReplaceOnce template placeholder text = ⟨preL ++ text.toList⟩ := by
    rw [hrepl0, processReplacement_id placeholder.toList preL [] text.toList hd,
      List.append_nil]
  rw [hrepl]
  have hdata : (String.mk (preL ++ text.toList)).toList = preL ++ text.toList := rfl
  constructor
  · show infixOf text.toList (String.mk (preL ++ text.toList)).toList = true
    rw [hdata]
    exact infixOf_append_self preL text.toList
  · show infixOf placeholder.toList (String.mk (preL ++ text.toList)).toList = false
    rw [hdata]
    have hp : placeholder.toList = braceChar :: placeholder.toList.tail := by decide
    rw [hp]
    apply infixOf_head_notin
    intro hmem
    rcases List.mem_append.mp hmem with hmem | hmem
    · exact hpre hmem
    · exact hb hmem

theorem resilienceGo_ok (outcome : Nat → AttemptResult) (attempt fuel : Nat)
    (t : String) (h : outcome attempt = .ok t) :
    resilienceGo outcome attempt fuel = (⟨true, some t, none⟩, 1) := by
  unfold resilienceGo
  rw [h]

theorem resilienceGo_err_zero (outcome : Nat → AttemptResult) (attempt : Nat)
    (m : String) (h : outcome attempt = .err m) :
    resilienceGo outcome attempt 0 = (⟨false, none, some m⟩, 1) := by
  unfold resilienceGo
  rw [h]

theorem resilienceGo_err_retry (outcome : Nat → AttemptResult) (attempt fuel1 : Nat)
    (m : String) (h : outcome attempt = .err m) (hr : isRetryable m = true) :
    resilienceGo outcome attempt (fuel1 + 1) =
      ((resilienceGo outcome (attempt + 1) fuel1).1,
        (resilienceGo outcome (attempt + 1) fuel1).2 + 1) := by
  conv_lhs => rw [resilienceGo]
  rw [h]
  simp only [hr, if_true]

theorem resilienceGo_err_fatal (outcome : Nat → AttemptResult) (attempt fuel1 : Nat)
    (m : String) (h : outcome attempt = .err m) (hr : isRetryable m = false) :
    resilienceGo outcome attempt (fuel1 + 1) = (⟨false, none, some m⟩, 1) := by
  unfold resilienceGo
  rw [h]
  simp only [hr, Bool.false_eq_true, if_false]

/-- Terminal-shape invariant of the retry loop: every terminal value is a
    success carrying a result or a failure carrying an error message. -/
theorem resilienceGo_shape (outcome : Nat → AttemptResult) :
    ∀ (fuel attempt : Nat),
      (∃ t, (resilienceGo outcome attempt fuel).1 = ⟨true, some t, none⟩) ∨
      (∃ e, (resilienceGo outcome attempt fuel).1 = ⟨false, none, some e⟩) := by
  intro fuel
  induction fuel with
  | zero =>
    intro attempt
    cases hout : outcome attempt with
    | ok t => exact Or.inl ⟨t, by rw [resilienceGo_ok outcome attempt 0 t hout]⟩
    | err m => exact Or.inr ⟨m, by rw [resilienceGo_err_zero outcome attempt m hout]⟩
  | succ fuel1 ih =>
    intro attempt
    cases hout : outcome attempt with
    | ok t =>
      exact Or.inl ⟨t, by rw [resilienceGo_ok outcome attempt (fuel1 + 1) t hout]⟩
    | err m =>
      by_cases hr : isRetryable m = true
      · rcases ih (attempt + 1) with ⟨t, ht⟩ | ⟨e, he⟩
        · exact Or.inl ⟨t, by
            rw [resilienceGo_err_retry outcome attempt fuel1 m hout hr]
            exact ht⟩
        · exact Or.inr ⟨e, by
            rw [resilienceGo_err_retry outcome attempt fuel1 m hout hr]
            exact he⟩
      · have hr2 : isRetryable m = false := by
          cases hb : isRetryable m
          · rfl
          · exact absurd hb hr
        exact Or.inr ⟨m, by
          rw [resilienceGo_err_fatal outcome attempt fuel1 m hout hr2]⟩

theorem resilienceGo_err_fatal_any (outcome : Nat → AttemptResult) (attempt fuel : Nat)
    (m : String) (h : outcome attempt = .err m) (hr : isRetryable m = false) :
    resilienceGo outcome attempt fuel = (⟨false, none, some m⟩, 1) := by
  cases fuel with
  | zero => exact resilienceGo_err_zero outcome attempt m h
  | succ fuel1 => exact resilienceGo_err_fatal outcome attempt fuel1 m h hr

/-! ## Claim theorems -/

/-- C1: the retryability decision of `fetchExplanationWithResilience` is a
    substring test on the error MESSAGE, not a test of the HTTP status, so the
    claim that every 5xx/429 failure is retried fails on the code: an HTTP 500
    response carrying the provider message Internal Server Error (the exact
    input of the repo's own retry test) is treated as fatal and the dispatcher
    is called exactly once, as is an HTTP 503 with the default message; only
    when the default message HTTP 500 / HTTP 429 survives do 500 and 429 cause
    exactly one retry before success, while 400 and 401 cause zero retries. -/
theorem C1_retry_classification_bug :
    fetchExplanationWithResilience
        (fun n => if n = 0
          then callOpenAICompatible_result (.fail 500 (some "Internal Server Error"))
          else callOpenAICompatible_result (.ok ⟨some [⟨some ⟨some "Retry worked"⟩⟩]⟩))
      = (⟨false, none, some "Internal Server Error"⟩, 1) ∧
    fetchExplanationWithResilience (fun _ => callOpenAICompatible_result (.fail 503 none))
      = (⟨false, none, some "HTTP 503"⟩, 1) ∧
    fetchExplanationWithResilience
        (fun n => if n = 0 then callOpenAICompatible_result (.fail 500 none)
          else callOpenAICompatible_result (.ok ⟨some [⟨some ⟨some "ok"⟩⟩]⟩))
      = (⟨true, some "ok", none⟩, 2) ∧
    fetchExplanationWithResilience
        (fun n => if n = 0 then callOpenAICompatible_result (.fail 429 none)
          else callOpenAICompatible_result (.ok ⟨some [⟨some ⟨some "ok"⟩⟩]⟩))
      = (⟨true, some "ok", none⟩, 2) ∧
    fetchExplanationWithResilience (fun _ => callOpenAICompatible_result (.fail 401 none))
      = (⟨false, none, some "HTTP 401"⟩, 1) ∧
    fetchExplanationWithResilience (fun _ => callOpenAICompatible_result (.fail 400 none))
      = (⟨false, none, some "HTTP 400"⟩, 1) := by
  refine ⟨?_, ?_, ?_, ?_, ?_, ?_⟩ <;> decide

/-- C2: each HTTP call is bounded by the 30000 ms `TIMEOUT_MS`, but the
    timed-out attempt is NOT retried: `fetchWithTimeout` throws the message
    Request timed out, the classifier greps for the substring timeout, which
    that message does not contain, so a timeout ends the request after one
    dispatcher call; a plain network failure (message containing network) IS
    retried under the backoff schedule.  This contradicts the spec, which says
    a timeout is a retryable failure. -/
theorem C2_timeout_not_retried_bug :
    TIMEOUT_MS = 30000 ∧
    callOpenAICompatible_result .timedOut = .err "Request timed out" ∧
    isRetryable "Request timed out" = false ∧
    fetchExplanationWithResilience (fun _ => callOpenAICompatible_result .timedOut)
      = (⟨false, none, some "Request timed out"⟩, 1) ∧
    fetchExplanationWithResilience
        (fun n => if n = 0 then callOpenAICompatible_result (.netError "network error")
          else callOpenAICompatible_result (.ok ⟨some [⟨some ⟨some "ok"⟩⟩]⟩))
      = (⟨true, some "ok", none⟩, 2) := by
  refine ⟨rfl, rfl, ?_, ?_, ?_⟩ <;> decide

/-- C3: on every code path of popup.js `saveSettings` and inline-popup.js
    `saveInlineSettings` — success path and local-fallback path alike — no
    payload handed to the cross-device (sync) store ever contains an `apiKeys`
    field or a `provider` field; only language and tone go there. -/
theorem C3_sync_store_never_gets_credentials
    (ns : Settings) (syncOk localOk fallbackOk : Bool) :
    ((saveSettings ns syncOk localOk fallbackOk).syncWrites.all
        fun p => p.apiKeys.isNone && p.provider.isNone) = true ∧
    ((saveInlineSettings ns syncOk localOk).syncWrites.all
        fun p => p.apiKeys.isNone && p.provider.isNone) = true := by
  constructor
  · unfold saveSettings
    split_ifs <;> rfl
  · unfold saveInlineSettings
    split_ifs <;> rfl

/-- C4: each provider dispatch carries the credential in exactly the declared
    scheme and no other: OpenAI and Groq only as an Authorization bearer
    header (never x-api-key, constant URL), Anthropic only as x-api-key plus
    the fixed anthropic-version header (never Authorization, constant URL),
    Gemini only as the key query parameter of the URL with Content-Type as
    its sole header (never Authorization, never x-api-key). -/
theorem C4_auth_scheme_exactness (apiKey : String) :
    (headerLookup (callProvider_request "openai" apiKey) "Authorization"
        = some ("Bearer " ++ apiKey) ∧
      headerLookup (callProvider_request "openai" apiKey) "x-api-key" = none ∧
      (callProvider_request "openai" apiKey).url
        = "https://api.openai.com/v1/chat/completions") ∧
    (headerLookup (callProvider_request "groq" apiKey) "Authorization"
        = some ("Bearer " ++ apiKey) ∧
      headerLookup (callProvider_request "groq" apiKey) "x-api-key" = none ∧
      (callProvider_request "groq" apiKey).url
        = "https://api.groq.com/openai/v1/chat/completions") ∧
    (headerLookup (callProvider_request "anthropic" apiKey) "x-api-key" = some apiKey ∧
      headerLookup (callProvider_request "anthropic" apiKey) "anthropic-version"
        = some "2023-06-01" ∧
      headerLookup (callProvider_request "anthropic" apiKey) "Authorization" = none ∧
      (callProvider_request "anthropic" apiKey).url
        = "https://api.anthropic.com/v1/messages") ∧
    ((callProvider_request "gemini" apiKey).headers
        = [("Content-Type", "application/json")] ∧
      headerLookup (callProvider_request "gemini" apiKey) "Authorization" = none ∧
      headerLookup (callProvider_request "gemini" apiKey) "x-api-key" = none ∧
      (callProvider_request "gemini" apiKey).url
        = "https://generativelanguage.googleapis.com/v1beta/models/gemini-1.5-flash:generateContent?key="
            ++ apiKey) :=
  ⟨⟨rfl, rfl, rfl⟩, ⟨rfl, rfl, rfl⟩, ⟨rfl, rfl, rfl, rfl⟩, ⟨rfl, rfl, rfl, rfl⟩⟩

/-- C5 counterexample: in the inline popup, typing the value with surrounding
    whitespace for openai, switching to groq and back, yields the TRIMMED
    value in the edit surface, not the typed value A — the change and input
    handlers store `keyInput.value.trim()` into the draft slot. -/
theorem C5_roundtrip_counterexample :
    (inlineProviderChange (inlineProviderChange
        (inlineTypeKey ⟨"openai", [], ""⟩ " sk ") "groq") "openai").keyInput
      ≠ " sk " := by decide

/-- C5 amended: the provider-switch round trip returns the captured draft:
    in the toolbar popup the edit surface holds exactly the typed value A
    after switching away and back; in the inline popup it holds the trimmed
    value of A (hence A itself whenever A carries no surrounding whitespace). -/
theorem C5_roundtrip_amended :
    (∀ (st : PopupState) (y a : String), st.provider ≠ y →
      (onProviderSwitch (onProviderSwitch (typeKey st a) y) st.provider).keyInput = a) ∧
    (∀ (st : InlineState) (y a : String), st.active ≠ y →
      (inlineProviderChange (inlineProviderChange (inlineTypeKey st a) y) st.active).keyInput
        = jsTrim a) := by
  constructor
  · intro st y a hxy
    simp only [typeKey, onProviderSwitch, updateApiKeyField]
    rw [jsGet_jsSet_other _ y st.provider _ hxy, jsGet_jsSet_self]
  · intro st y a hxy
    simp only [inlineTypeKey, inlineProviderChange, inlineUpdateApiKeyField]
    rw [jsGet_jsSet_other _ y st.active _ hxy, jsGet_jsSet_self]

/-- C5 amended, witness: concrete round trips through openai → groq → openai
    in both surfaces. -/
theorem C5_roundtrip_amended_witness :
    (onProviderSwitch (onProviderSwitch
        (typeKey ⟨"openai", [("openai", "saved-key")], [], "old"⟩ "draft-A") "groq")
        "openai").keyInput = "draft-A" ∧
    (inlineProviderChange (inlineProviderChange
        (inlineTypeKey ⟨"openai", [], ""⟩ " sk ") "groq") "openai").keyInput
      = jsTrim " sk " :=
  ⟨C5_roundtrip_amended.1 ⟨"openai", [("openai", "saved-key")], [], "old"⟩ "groq"
      "draft-A" (by decide),
    C5_roundtrip_amended.2 ⟨"openai", [], ""⟩ "groq" " sk " (by decide)⟩

/-- C6 counterexample: for the input text consisting of the JS replacement
    pattern dollar-ampersand, the built prompt does NOT contain the literal
    input text and DOES contain a leftover placeholder token, because JS
    `String.replace` substitutes the matched placeholder for the pattern. -/
theorem C6_literal_text_counterexample :
    ¬(jsIncludes (buildPrompt "$&" "simple" "en") "$&" = true ∧
      jsIncludes (buildPrompt "$&" "simple" "en") placeholder = false) := by decide

/-- C6 amended: for every input text free of dollar and brace characters (so
    in particular free of JS replacement patterns and of the placeholder
    token itself) and every tone and language in the enumerations, the built
    prompt contains the literal input text and no leftover placeholder. -/
theorem C6_literal_text_amended (text tone language : String)
    (htone : tone = "simple" ∨ tone = "kid" ∨ tone = "expert")
    (hlang : language = "en" ∨ language = "ru")
    (hd : dollarChar ∉ text.toList) (hb : braceChar ∉ text.toList) :
    jsIncludes (buildPrompt text tone language) text = true ∧
      jsIncludes (buildPrompt text tone language) placeholder = false := by
  rcases htone with h | h | h <;> subst h <;> rcases hlang with h2 | h2 <;> subst h2
  · exact replace_case simple_en text
      (simple_en.toList.take (simple_en.toList.length - 6)) (by decide) (by decide) hd hb
  · exact replace_case simple_ru text
      (simple_ru.toList.take (simple_ru.toList.length - 6)) (by decide) (by decide) hd hb
  · exact replace_case kid_en text
      (kid_en.toList.take (kid_en.toList.length - 6)) (by decide) (by decide) hd hb
  · exact replace_case kid_ru text
      (kid_ru.toList.take (kid_ru.toList.length - 6)) (by decide) (by decide) hd hb
  · exact replace_case expert_en text
      (expert_en.toList.take (expert_en.toList.length - 6)) (by decide) (by decide) hd hb
  · exact replace_case expert_ru text
      (expert_ru.toList.take (expert_ru.toList.length - 6)) (by decide) (by decide) hd hb

/-- C6 amended, witness: a concrete dollar-free and brace-free text through
    the simple English template. -/
theorem C6_literal_text_amended_witness :
    jsIncludes (buildPrompt "gravity waves" "simple" "en") "gravity waves" = true ∧
      jsIncludes (buildPrompt "gravity waves" "simple" "en") placeholder = false :=
  C6_literal_text_amended "gravity waves" "simple" "en" (Or.inl rfl) (Or.inl rfl)
    (by decide) (by decide)

/-- C7: `buildPrompt` is total and falls back: for every text, tone and
    language — including values outside the enumerations — the result equals
    the result for the substituted pair where an unrecognized tone becomes
    simple and an unrecognized language becomes en. -/
theorem C7_unknown_tone_language_fallback (text tone language : String) :
    buildPrompt text tone language =
      buildPrompt text
        (if tone = "simple" ∨ tone = "kid" ∨ tone = "expert" then tone else "simple")
        (if language = "en" ∨ language = "ru" then language else "en") := by
  by_cases ht : tone = "simple" ∨ tone = "kid" ∨ tone = "expert"
  · rw [if_pos ht]
    by_cases hl : language = "en" ∨ language = "ru"
    · rw [if_pos hl]
    · rw [if_neg hl]
      push_neg at hl
      obtain ⟨hl1, hl2⟩ := hl
      rcases ht with h | h | h <;> subst h <;>
        simp [buildPrompt, PROMPTS, langLookup, hl1, hl2]
  · rw [if_neg ht]
    push_neg at ht
    obtain ⟨ht1, ht2, ht3⟩ := ht
    by_cases hl : language = "en" ∨ language = "ru"
    · rw [if_pos hl]
      rcases hl with h | h <;> subst h <;>
        simp [buildPrompt, PROMPTS, langLookup, ht1, ht2, ht3]
    · rw [if_neg hl]
      push_neg at hl
      obtain ⟨hl1, hl2⟩ := hl
      simp [buildPrompt, PROMPTS, langLookup, ht1, ht2, ht3, hl1, hl2]

/-- C8: a dispatch whose HTTP call succeeds but whose body yields nothing on
    the extraction path (`choices` empty or a field missing) resolves to the
    typed empty-response failure: overall result success false with the
    empty-response error, after exactly one dispatcher call — never a crash,
    never a success. -/
theorem C8_empty_response_typed_failure (b : OpenAIBody)
    (h : extractOpenAI b = none) :
    fetchExplanationWithResilience (fun _ => callOpenAICompatible_result (.ok b))
      = (⟨false, none, some "Empty response from provider"⟩, 1) := by
  have hres : callOpenAICompatible_result (.ok b) = .err "Empty response from provider" := by
    show (match extractOpenAI b with
      | some s => if s = "" then AttemptResult.err "Empty response from provider"
                  else AttemptResult.ok s
      | none => AttemptResult.err "Empty response from provider")
        = AttemptResult.err "Empty response from provider"
    rw [h]
  exact resilienceGo_err_fatal_any _ 0 RETRY_ATTEMPTS _ hres (by decide)

/-- C8 witness: the concrete body with `choices` the empty array. -/
theorem C8_empty_response_witness :
    fetchExplanationWithResilience
        (fun _ => callOpenAICompatible_result (.ok ⟨some []⟩))
      = (⟨false, none, some "Empty response from provider"⟩, 1) :=
  C8_empty_response_typed_failure ⟨some []⟩ rfl

/-- C9 counterexample: the credential-error flag is NOT computed by the
    Resilience Controller from the original error classification — its
    terminal value for a 401 failure is plain success/error with no flag, and
    the popup layer above re-derives the flag from the raw error text, so two
    authentication failures of the same class (HTTP 401) end with different
    flags depending only on the message wording. -/
theorem C9_credential_flag_counterexample :
    (fetchExplanationWithResilience
        (fun _ => callOpenAICompatible_result (.fail 401 (some "Unauthorized")))).1
      = ⟨false, none, some "Unauthorized"⟩ ∧
    popupIsNoKeyError (fetchExplanationWithResilience
        (fun _ => callOpenAICompatible_result (.fail 401 (some "Unauthorized")))).1.error
      = false ∧
    popupIsNoKeyError (fetchExplanationWithResilience
        (fun _ => callOpenAICompatible_result
          (.fail 401 (some "Incorrect API key provided")))).1.error
      = true := by
  refine ⟨?_, ?_, ?_⟩ <;> decide

/-- C9 amended: the terminal result of `fetchExplanationWithResilience` is
    either success true with a result string and no error, or success false
    with an error message and no result — it carries no credential-error
    flag; the flag shown to the user is re-derived by popup.js from the raw
    error text. -/
theorem C9_terminal_result_amended (outcome : Nat → AttemptResult) :
    (∃ t, (fetchExplanationWithResilience outcome).1 = ⟨true, some t, none⟩) ∨
    (∃ e, (fetchExplanationWithResilience outcome).1 = ⟨false, none, some e⟩) :=
  resilienceGo_shape outcome RETRY_ATTEMPTS 0

/-- C10: a FETCH_EXPLANATION request finding no credential for the active
    provider in the device-local store (absent map, absent entry or the empty
    string) resolves to success false with the no-key error, with zero
    dispatcher calls and without entering the retry loop. -/
theorem C10_no_key_short_circuit (storedProvider : Option String)
    (storedApiKeys : Option (List (String × String))) (outcome : Nat → AttemptResult)
    (h : (jsGet (storedApiKeys.getD []) (storedProvider.getD "openai")).getD "" = "") :
    handleFetchExplanation storedProvider storedApiKeys outcome
      = (⟨false, none, some noKeyError⟩, 0) := by
  simp [handleFetchExplanation, h]

/-- C10 witness: the stored state with provider openai and no apiKeys map. -/
theorem C10_no_key_short_circuit_witness :
    handleFetchExplanation (some "openai") none (fun _ => .err "boom")
      = (⟨false, none, some noKeyError⟩, 0) :=
  C10_no_key_short_circuit (some "openai") none (fun _ => .err "boom") (by decide)

end ExplainIt
